import Mathlib

set_option maxRecDepth 8000

/-
Verification of `mds/db/sql.py`: SQL statement generation for MDS Provider
database migration (status_changes and trips).

The module under verification builds `INSERT INTO ... SELECT ... FROM ...`
statements, adapting column lists and casts to the target MDS schema version
(the 0.3.0 boundary), with an optional `ON CONFLICT` clause.

`mds/versions.py` and `mds/schemas.py` are not part of the sources; the
`Version` type, its ordering, the `unsupported` predicate, the
`UnsupportedVersionError` and the table-name constants are modelled from the
specification (see the individual doc comments).
-/

namespace MdsSql

/-- Modelled from the spec: `mds/versions.py` is not among the sources.
A `Version` is a comparable major.minor.patch value. -/
structure Version where
  major : Nat
  minor : Nat
  patch : Nat
  deriving DecidableEq, Repr

/-- Modelled from the spec: comparisons follow standard major.minor.patch
ordering, not lexical string ordering. -/
def Version.blt (a b : Version) : Bool :=
  if a.major = b.major then
    if a.minor = b.minor then decide (a.patch < b.patch)
    else decide (a.minor < b.minor)
  else decide (a.major < b.major)

/-- Modelled from the spec: the library's lowest supported MDS version,
the default when no version is supplied. -/
def Version.mds_lower : Version := ⟨0, 2, 0⟩

/-- Modelled from the spec: the highest known MDS release; the spec's
examples treat 0.4.0 as supported. -/
def Version.mds_upper : Version := ⟨0, 4, 0⟩

/-- Modelled from the spec: a version outside the known supported release
range (below the lowest supported release, or newer than the highest known
release) is unsupported. -/
def Version.unsupported (v : Version) : Bool :=
  v.blt Version.mds_lower || Version.mds_upper.blt v

/-- Modelled from the spec: the error raised for an unsupported version;
it carries the offending version value. -/
structure UnsupportedVersionError where
  version : Version
  deriving DecidableEq, Repr

/-- Modelled from the spec: canonical destination table name constant for
status changes, imported from `mds/schemas.py`. -/
def STATUS_CHANGES : String := "status_changes"

/-- Modelled from the spec: canonical destination table name constant for
trips, imported from `mds/schemas.py`. -/
def TRIPS : String := "trips"

/-- The `actions` component of an `on_conflict_update` tuple: a SQL string,
a list of column action strings, or a dict of column=value pairs (a Python
dict iterates in insertion order, so it is modelled as an association list). -/
inductive ConflictActions where
  | str (s : String)
  | list (l : List String)
  | dict (d : List (String × String))
  deriving DecidableEq, Repr

/-- The dynamically-typed `on_conflict_update` argument: `None` (absent), a
`(condition, actions)` tuple, or a non-tuple value passed by mistake (a bare
string, list or dict). -/
inductive OnConflictArg where
  | none
  | tuple (condition : String) (actions : ConflictActions)
  | bareStr (s : String)
  | bareList (l : List String)
  | bareDict (d : List (String × String))
  deriving DecidableEq, Repr

/-- Python truthiness of an `on_conflict_update` value: `None` is falsy, a
two-element tuple is truthy, and a bare string, list or dict is truthy
exactly when non-empty. -/
def OnConflictArg.truthy : OnConflictArg → Bool
  | .none => false
  | .tuple _ _ => true
  | .bareStr s => !s.isEmpty
  | .bareList l => !l.isEmpty
  | .bareDict d => !d.isEmpty

/-- The `isinstance(on_conflict_update, tuple)` check of the source. -/
def OnConflictArg.isTuple : OnConflictArg → Bool
  | .tuple _ _ => true
  | _ => false

/-- `on_conflict_statement` from `mds/db/sql.py`: if `on_conflict_update` is
truthy and a tuple, render `ON CONFLICT condition DO UPDATE SET actions`
(joining list or dict actions with commas); otherwise return
`ON CONFLICT DO NOTHING`. -/
def on_conflict_statement (on_conflict_update : OnConflictArg) : String :=
  if on_conflict_update.truthy then
    match on_conflict_update with
    | .tuple condition actions =>
        let actions :=
          match actions with
          | .str s => s
          | .list l => String.intercalate "," l
          | .dict d => String.intercalate "," (d.map fun kv => kv.1 ++ " = " ++ kv.2)
        "ON CONFLICT " ++ condition ++ " DO UPDATE SET " ++ actions
    | _ => "ON CONFLICT DO NOTHING"
  else
    "ON CONFLICT DO NOTHING"

/-- `_COMMON_INSERTS` from `mds/db/sql.py`: six common insert column names. -/
def _COMMON_INSERTS : List String :=
  ["provider_id",
   "provider_name",
   "device_id",
   "vehicle_id",
   "vehicle_type",
   "propulsion_type"]

/-- `_COMMON_SELECTS` from `mds/db/sql.py`. Note: in the source the literals
`"vehicle_id,"` and `"cast(vehicle_type as vehicle_types)"` are adjacent with
no separating comma, so Python implicit string concatenation merges them into
one five-element list whose fourth element contains an embedded comma. -/
def _COMMON_SELECTS : List String :=
  ["cast(provider_id as uuid)",
   "provider_name",
   "cast(device_id as uuid)",
   "vehicle_id,cast(vehicle_type as vehicle_types)",
   "cast(propulsion_type as propulsion_types[])"]

/-- The insert-column list built by `insert_status_changes_from` before
joining: common inserts, status-change fixed columns, then the
version-dependent suffix. -/
def status_change_inserts (version : Version) : List String :=
  _COMMON_INSERTS ++
    ["event_type",
     "event_type_reason",
     "event_location",
     "battery_pct"] ++
    (if version.blt ⟨0, 3, 0⟩ then
      ["event_time",
       "associated_trips"]
    else
      ["event_time",
       "publication_time",
       "associated_trip"])

/-- The select-expression list built by `insert_status_changes_from` before
joining. -/
def status_change_selects (version : Version) : List String :=
  _COMMON_SELECTS ++
    ["cast(event_type as event_types)",
     "cast(event_type_reason as event_type_reasons)",
     "cast(event_location as jsonb)",
     "battery_pct"] ++
    (if version.blt ⟨0, 3, 0⟩ then
      ["to_timestamp(event_time) at time zone 'UTC'",
       "cast(associated_trips as uuid[])"]
    else
      ["to_timestamp(cast(event_time as double precision) / 1000.0) at time zone 'UTC'",
       "to_timestamp(cast(publication_time as double precision) / 1000.0) at time zone 'UTC'",
       "cast(associated_trip as uuid)"])

/-- The insert-column list built by `insert_trips_from` before joining. -/
def trips_inserts (version : Version) : List String :=
  _COMMON_INSERTS ++
    ["trip_id",
     "trip_duration",
     "trip_distance",
     "route",
     "accuracy",
     "parking_verification_url",
     "standard_cost",
     "actual_cost"] ++
    (if version.blt ⟨0, 3, 0⟩ then
      ["start_time",
       "end_time"]
    else
      ["start_time",
       "end_time",
       "publication_time"])

/-- The select-expression list built by `insert_trips_from` before joining.
Note: in the source the literals `"parking_verification_url,"`,
`"standard_cost,"` and `"actual_cost"` are adjacent with no separating
commas, so Python implicit string concatenation merges them into one element
with two embedded commas. -/
def trips_selects (version : Version) : List String :=
  _COMMON_SELECTS ++
    ["cast(trip_id as uuid)",
     "trip_duration",
     "trip_distance",
     "cast(route as jsonb)",
     "accuracy",
     "parking_verification_url,standard_cost,actual_cost"] ++
    (if version.blt ⟨0, 3, 0⟩ then
      ["to_timestamp(start_time) at time zone 'UTC'",
       "to_timestamp(end_time) at time zone 'UTC'"]
    else
      ["to_timestamp(cast(start_time as double precision) / 1000.0) at time zone 'UTC'",
       "to_timestamp(cast(end_time as double precision) / 1000.0) at time zone 'UTC'",
       "to_timestamp(cast(publication_time as double precision) / 1000.0) at time zone 'UTC'"])

/-- The f-string template shared by both insert functions:
`INSERT INTO "<dest>" (<cols>) SELECT <exprs> FROM "<source>" <on_conflict> ;`
with the exact newlines and indentation of the source's triple-quoted
f-string. -/
def renderStatement (dest_table inserts selects source_table on_conflict : String) : String :=
  "\n    INSERT INTO \"" ++ dest_table ++ "\"\n    (" ++ inserts ++ ")\n    SELECT " ++
    selects ++ "\n    FROM \"" ++ source_table ++ "\"\n    " ++ on_conflict ++ "\n    ;\n    "

/-- `insert_status_changes_from` from `mds/db/sql.py`. The Python signature
`(source_table, dest_table=STATUS_CHANGES, **kwargs)` with kwargs
`on_conflict_update` (default `None`) and `version` (default
`Version.mds_lower()`) is uncurried into explicit arguments; raising
`UnsupportedVersionError` becomes returning `.error`. -/
def insert_status_changes_from (source_table dest_table : String)
    (on_conflict_update : OnConflictArg) (version : Version) :
    Except UnsupportedVersionError String :=
  if version.unsupported then
    .error ⟨version⟩
  else
    let on_conflict := on_conflict_statement on_conflict_update
    let inserts := String.intercalate "," (status_change_inserts version)
    let selects := String.intercalate "," (status_change_selects version)
    .ok (renderStatement dest_table inserts selects source_table on_conflict)

/-- `insert_trips_from` from `mds/db/sql.py`, uncurried as above. -/
def insert_trips_from (source_table dest_table : String)
    (on_conflict_update : OnConflictArg) (version : Version) :
    Except UnsupportedVersionError String :=
  if version.unsupported then
    .error ⟨version⟩
  else
    let on_conflict := on_conflict_statement on_conflict_update
    let inserts := String.intercalate "," (trips_inserts version)
    let selects := String.intercalate "," (trips_selects version)
    .ok (renderStatement dest_table inserts selects source_table on_conflict)

/-- The select expressions of `insert_status_changes_from` as individual
comma-free SQL expressions: the elements that Python implicit string
concatenation merged in `_COMMON_SELECTS` are listed separately, so this list
pairs 1:1 by position with `status_change_inserts`. -/
def status_change_selects_flat (version : Version) : List String :=
  ["cast(provider_id as uuid)",
   "provider_name",
   "cast(device_id as uuid)",
   "vehicle_id",
   "cast(vehicle_type as vehicle_types)",
   "cast(propulsion_type as propulsion_types[])"] ++
    ["cast(event_type as event_types)",
     "cast(event_type_reason as event_type_reasons)",
     "cast(event_location as jsonb)",
     "battery_pct"] ++
    (if version.blt ⟨0, 3, 0⟩ then
      ["to_timestamp(event_time) at time zone 'UTC'",
       "cast(associated_trips as uuid[])"]
    else
      ["to_timestamp(cast(event_time as double precision) / 1000.0) at time zone 'UTC'",
       "to_timestamp(cast(publication_time as double precision) / 1000.0) at time zone 'UTC'",
       "cast(associated_trip as uuid)"])

/-- The select expressions of `insert_trips_from` as individual comma-free
SQL expressions, pairing 1:1 by position with `trips_inserts`. -/
def trips_selects_flat (version : Version) : List String :=
  ["cast(provider_id as uuid)",
   "provider_name",
   "cast(device_id as uuid)",
   "vehicle_id",
   "cast(vehicle_type as vehicle_types)",
   "cast(propulsion_type as propulsion_types[])"] ++
    ["cast(trip_id as uuid)",
     "trip_duration",
     "trip_distance",
     "cast(route as jsonb)",
     "accuracy",
     "parking_verification_url",
     "standard_cost",
     "actual_cost"] ++
    (if version.blt ⟨0, 3, 0⟩ then
      ["to_timestamp(start_time) at time zone 'UTC'",
       "to_timestamp(end_time) at time zone 'UTC'"]
    else
      ["to_timestamp(cast(start_time as double precision) / 1000.0) at time zone 'UTC'",
       "to_timestamp(cast(end_time as double precision) / 1000.0) at time zone 'UTC'",
       "to_timestamp(cast(publication_time as double precision) / 1000.0) at time zone 'UTC'"])

/-- The module-level state of `mds/db/sql.py`: its two global column-spec
lists, made explicit to reason about mutation across calls. -/
structure ModuleState where
  common_inserts : List String
  common_selects : List String
  deriving DecidableEq, Repr

/-- The module state at import time. -/
def initState : ModuleState := ⟨_COMMON_INSERTS, _COMMON_SELECTS⟩

/-- `on_conflict_statement` with the module state passed explicitly: the
function never reads or writes the global lists. -/
def on_conflict_statement_st (st : ModuleState) (on_conflict_update : OnConflictArg) :
    ModuleState × String :=
  (st, on_conflict_statement on_conflict_update)

/-- `insert_status_changes_from` with the module state passed explicitly.
The source does `inserts = list(_COMMON_INSERTS)` (a copy) and then extends
only the local copy, so the state passes through unchanged. -/
def insert_status_changes_from_st (st : ModuleState) (source_table dest_table : String)
    (on_conflict_update : OnConflictArg) (version : Version) :
    ModuleState × Except UnsupportedVersionError String :=
  if version.unsupported then
    (st, .error ⟨version⟩)
  else
    let on_conflict := on_conflict_statement on_conflict_update
    let inserts := st.common_inserts ++
      ["event_type",
       "event_type_reason",
       "event_location",
       "battery_pct"] ++
      (if version.blt ⟨0, 3, 0⟩ then
        ["event_time",
         "associated_trips"]
      else
        ["event_time",
         "publication_time",
         "associated_trip"])
    let selects := st.common_selects ++
      ["cast(event_type as event_types)",
       "cast(event_type_reason as event_type_reasons)",
       "cast(event_location as jsonb)",
       "battery_pct"] ++
      (if version.blt ⟨0, 3, 0⟩ then
        ["to_timestamp(event_time) at time zone 'UTC'",
         "cast(associated_trips as uuid[])"]
      else
        ["to_timestamp(cast(event_time as double precision) / 1000.0) at time zone 'UTC'",
         "to_timestamp(cast(publication_time as double precision) / 1000.0) at time zone 'UTC'",
         "cast(associated_trip as uuid)"])
    (st, .ok (renderStatement dest_table (String.intercalate "," inserts)
      (String.intercalate "," selects) source_table on_conflict))

/-- `insert_trips_from` with the module state passed explicitly; as above,
the source copies the globals and extends only the copies. -/
def insert_trips_from_st (st : ModuleState) (source_table dest_table : String)
    (on_conflict_update : OnConflictArg) (version : Version) :
    ModuleState × Except UnsupportedVersionError String :=
  if version.unsupported then
    (st, .error ⟨version⟩)
  else
    let on_conflict := on_conflict_statement on_conflict_update
    let inserts := st.common_inserts ++
      ["trip_id",
       "trip_duration",
       "trip_distance",
       "route",
       "accuracy",
       "parking_verification_url",
       "standard_cost",
       "actual_cost"] ++
      (if version.blt ⟨0, 3, 0⟩ then
        ["start_time",
         "end_time"]
      else
        ["start_time",
         "end_time",
         "publication_time"])
    let selects := st.common_selects ++
      ["cast(trip_id as uuid)",
       "trip_duration",
       "trip_distance",
       "cast(route as jsonb)",
       "accuracy",
       "parking_verification_url,standard_cost,actual_cost"] ++
      (if version.blt ⟨0, 3, 0⟩ then
        ["to_timestamp(start_time) at time zone 'UTC'",
         "to_timestamp(end_time) at time zone 'UTC'"]
      else
        ["to_timestamp(cast(start_time as double precision) / 1000.0) at time zone 'UTC'",
         "to_timestamp(cast(end_time as double precision) / 1000.0) at time zone 'UTC'",
         "to_timestamp(cast(publication_time as double precision) / 1000.0) at time zone 'UTC'"])
    (st, .ok (renderStatement dest_table (String.intercalate "," inserts)
      (String.intercalate "," selects) source_table on_conflict))

/-! ## Helper lemmas -/

/-- Joining the status-change select list (with its merged elements) gives
the same string as joining the fully separated expression list. -/
theorem status_selects_join_flat (v : Version) :
    String.intercalate "," (status_change_selects v) =
      String.intercalate "," (status_change_selects_flat v) := by
  unfold status_change_selects status_change_selects_flat _COMMON_SELECTS
  by_cases h : v.blt ⟨0, 3, 0⟩ = true <;> simp only [h, if_true, if_false] <;> decide

/-- Joining the trips select list (with its merged elements) gives the same
string as joining the fully separated expression list. -/
theorem trips_selects_join_flat (v : Version) :
    String.intercalate "," (trips_selects v) =
      String.intercalate "," (trips_selects_flat v) := by
  unfold trips_selects trips_selects_flat _COMMON_SELECTS
  by_cases h : v.blt ⟨0, 3, 0⟩ = true <;> simp only [h, if_true, if_false] <;> decide

/-- The flat select lists have the same length as the insert lists, for
every version. -/
theorem selects_flat_length (v : Version) :
    (status_change_selects_flat v).length = (status_change_inserts v).length ∧
      (trips_selects_flat v).length = (trips_inserts v).length := by
  unfold status_change_selects_flat status_change_inserts trips_selects_flat trips_inserts
  unfold _COMMON_INSERTS
  by_cases h : v.blt ⟨0, 3, 0⟩ = true <;> simp only [h, if_true, if_false] <;> decide

/-! ## Claims -/

/-- Claim C1, counterexample: at supported version 0.2.0, the select list
built before joining is strictly shorter than the insert list, for both
entity kinds — Python implicit string concatenation merged adjacent string
literals (one pair in `_COMMON_SELECTS`, one triple in the trips selects),
so there is no 1:1 positional correspondence between the two lists. -/
theorem insert_select_length_mismatch :
    Version.unsupported ⟨0, 2, 0⟩ = false ∧
      (status_change_selects ⟨0, 2, 0⟩).length ≠ (status_change_inserts ⟨0, 2, 0⟩).length ∧
      (trips_selects ⟨0, 2, 0⟩).length ≠ (trips_inserts ⟨0, 2, 0⟩).length := by
  decide

/-- Claim C1 (amended): for every version, the select-expression list built
before joining is shorter than the insert-column list (by one element for
StatusChange and by three for Trip, due to implicit string concatenation in
the source), but the comma-joined select string is identical to the join of
a fully separated expression list that has exactly the same length as the
insert-column list, with each expression at the ordinal position of its
insert column — so the rendered SQL keeps the 1:1 positional
correspondence. -/
theorem insert_select_positional_correspondence (v : Version) :
    String.intercalate "," (status_change_selects v) =
        String.intercalate "," (status_change_selects_flat v) ∧
      (status_change_selects_flat v).length = (status_change_inserts v).length ∧
      String.intercalate "," (trips_selects v) =
        String.intercalate "," (trips_selects_flat v) ∧
      (trips_selects_flat v).length = (trips_inserts v).length :=
  ⟨status_selects_join_flat v, (selects_flat_length v).1,
   trips_selects_join_flat v, (selects_flat_length v).2⟩

/-- Claim C2: for every version whose `unsupported` predicate holds, both
insert functions return the `UnsupportedVersionError` carrying the offending
version value, and no SQL string. -/
theorem unsupported_version_errors (src dest : String) (ocu : OnConflictArg)
    (v : Version) (h : v.unsupported = true) :
    insert_status_changes_from src dest ocu v = .error ⟨v⟩ ∧
      insert_trips_from src dest ocu v = .error ⟨v⟩ := by
  refine ⟨?_, ?_⟩ <;> simp [insert_status_changes_from, insert_trips_from, h]

/-- Witness for C2 at version 0.5.0 (newer than the highest known release). -/
theorem unsupported_version_errors_witness :
    Version.unsupported ⟨0, 5, 0⟩ = true ∧
      insert_status_changes_from "stage" "status_changes" .none ⟨0, 5, 0⟩ =
        .error ⟨⟨0, 5, 0⟩⟩ ∧
      insert_trips_from "stage" "trips" .none ⟨0, 5, 0⟩ = .error ⟨⟨0, 5, 0⟩⟩ :=
  ⟨by decide,
   (unsupported_version_errors "stage" "status_changes" .none ⟨0, 5, 0⟩ (by decide)).1,
   (unsupported_version_errors "stage" "trips" .none ⟨0, 5, 0⟩ (by decide)).2⟩

/-- Claim C5: for every conflict directive given as a `(condition, actions)`
pair, `on_conflict_statement` returns
`ON CONFLICT <condition> DO UPDATE SET <actions>`, rendering string actions
raw, list actions comma-joined, and dict actions as comma-joined
`<column> = <value>` pairs in iteration order; in particular the
battery_pct mapping yields `battery_pct = EXCLUDED.battery_pct`. -/
theorem on_conflict_update_rendering (condition s : String) (l : List String)
    (m : List (String × String)) :
    on_conflict_statement (.tuple condition (.str s)) =
        "ON CONFLICT " ++ condition ++ " DO UPDATE SET " ++ s ∧
      on_conflict_statement (.tuple condition (.list l)) =
        "ON CONFLICT " ++ condition ++ " DO UPDATE SET " ++ String.intercalate "," l ∧
      on_conflict_statement (.tuple condition (.dict m)) =
        "ON CONFLICT " ++ condition ++ " DO UPDATE SET " ++
          String.intercalate "," (m.map fun kv => kv.1 ++ " = " ++ kv.2) ∧
      on_conflict_statement
          (.tuple "(provider_id, device_id)"
            (.dict [("battery_pct", "EXCLUDED.battery_pct")])) =
        "ON CONFLICT (provider_id, device_id) DO UPDATE SET battery_pct = EXCLUDED.battery_pct" :=
  ⟨rfl, rfl, rfl, by decide⟩

/-- Claim C3: for supported versions v1 below 0.3.0 and v2 at or above
0.3.0, the status-change statement built with v1 carries the insert column
`associated_trips` with select expression `cast(associated_trips as uuid[])`
and no `publication_time` column, while the one built with v2 carries
`associated_trip` with `cast(associated_trip as uuid)` plus a
`publication_time` column. -/
theorem status_change_version_branch (v1 v2 : Version)
    (h1 : v1.unsupported = false) (h2 : v2.unsupported = false)
    (hlt : v1.blt ⟨0, 3, 0⟩ = true) (hge : v2.blt ⟨0, 3, 0⟩ = false) :
    "associated_trips" ∈ status_change_inserts v1 ∧
      "cast(associated_trips as uuid[])" ∈ status_change_selects v1 ∧
      "publication_time" ∉ status_change_inserts v1 ∧
      "associated_trip" ∈ status_change_inserts v2 ∧
      "cast(associated_trip as uuid)" ∈ status_change_selects v2 ∧
      "publication_time" ∈ status_change_inserts v2 := by
  simp only [status_change_inserts, status_change_selects, _COMMON_INSERTS,
    _COMMON_SELECTS, hlt, hge]
  decide

/-- Witness for C3 at v1 = 0.2.1 and v2 = 0.3.2. -/
theorem status_change_version_branch_witness :
    Version.unsupported ⟨0, 2, 1⟩ = false ∧
      Version.unsupported ⟨0, 3, 2⟩ = false ∧
      Version.blt ⟨0, 2, 1⟩ ⟨0, 3, 0⟩ = true ∧
      Version.blt ⟨0, 3, 2⟩ ⟨0, 3, 0⟩ = false ∧
      ("associated_trips" ∈ status_change_inserts ⟨0, 2, 1⟩ ∧
        "cast(associated_trips as uuid[])" ∈ status_change_selects ⟨0, 2, 1⟩ ∧
        "publication_time" ∉ status_change_inserts ⟨0, 2, 1⟩ ∧
        "associated_trip" ∈ status_change_inserts ⟨0, 3, 2⟩ ∧
        "cast(associated_trip as uuid)" ∈ status_change_selects ⟨0, 3, 2⟩ ∧
        "publication_time" ∈ status_change_inserts ⟨0, 3, 2⟩) :=
  ⟨by decide, by decide, by decide, by decide,
   status_change_version_branch ⟨0, 2, 1⟩ ⟨0, 3, 2⟩
     (by decide) (by decide) (by decide) (by decide)⟩

/-- Claim C4: `insert_trips_from "stage_trips"` at version 0.2.1 yields a
statement whose insert columns end with start_time,end_time and contain no
publication_time, with start-time select expression
`to_timestamp(start_time) at time zone 'UTC'`; at version 0.4.0 the insert
columns end with start_time,end_time,publication_time and the start-time
select expression is
`to_timestamp(cast(start_time as double precision) / 1000.0) at time zone 'UTC'`
(positions measured in the flattened expression list that the joined select
string renders). -/
theorem insert_trips_version_examples :
    insert_trips_from "stage_trips" TRIPS .none ⟨0, 2, 1⟩ =
        .ok (renderStatement TRIPS (String.intercalate "," (trips_inserts ⟨0, 2, 1⟩))
          (String.intercalate "," (trips_selects ⟨0, 2, 1⟩)) "stage_trips"
          "ON CONFLICT DO NOTHING") ∧
      List.isSuffixOf ["start_time", "end_time"] (trips_inserts ⟨0, 2, 1⟩) = true ∧
      "publication_time" ∉ trips_inserts ⟨0, 2, 1⟩ ∧
      "to_timestamp(start_time) at time zone 'UTC'" ∈ trips_selects ⟨0, 2, 1⟩ ∧
      (trips_selects_flat ⟨0, 2, 1⟩).indexOf "to_timestamp(start_time) at time zone 'UTC'" =
        (trips_inserts ⟨0, 2, 1⟩).indexOf "start_time" ∧
      insert_trips_from "stage_trips" TRIPS .none ⟨0, 4, 0⟩ =
        .ok (renderStatement TRIPS (String.intercalate "," (trips_inserts ⟨0, 4, 0⟩))
          (String.intercalate "," (trips_selects ⟨0, 4, 0⟩)) "stage_trips"
          "ON CONFLICT DO NOTHING") ∧
      List.isSuffixOf ["start_time", "end_time", "publication_time"]
          (trips_inserts ⟨0, 4, 0⟩) = true ∧
      "to_timestamp(cast(start_time as double precision) / 1000.0) at time zone 'UTC'"
          ∈ trips_selects ⟨0, 4, 0⟩ ∧
      (trips_selects_flat ⟨0, 4, 0⟩).indexOf
          "to_timestamp(cast(start_time as double precision) / 1000.0) at time zone 'UTC'" =
        (trips_inserts ⟨0, 4, 0⟩).indexOf "start_time" ∧
      String.intercalate "," (trips_selects ⟨0, 2, 1⟩) =
        String.intercalate "," (trips_selects_flat ⟨0, 2, 1⟩) ∧
      String.intercalate "," (trips_selects ⟨0, 4, 0⟩) =
        String.intercalate "," (trips_selects_flat ⟨0, 4, 0⟩) := by
  refine ⟨rfl, ?_, ?_, ?_, ?_, rfl, ?_, ?_, ?_, ?_, ?_⟩ <;> decide

/-- Claim C6: with the conflict directive omitted, `on_conflict_statement`
returns exactly `ON CONFLICT DO NOTHING`, and both insert functions splice
that literal clause into their statements. -/
theorem omitted_conflict_do_nothing (src dest : String) (v : Version)
    (h : v.unsupported = false) :
    on_conflict_statement .none = "ON CONFLICT DO NOTHING" ∧
      insert_status_changes_from src dest .none v =
        .ok (renderStatement dest (String.intercalate "," (status_change_inserts v))
          (String.intercalate "," (status_change_selects v)) src
          "ON CONFLICT DO NOTHING") ∧
      insert_trips_from src dest .none v =
        .ok (renderStatement dest (String.intercalate "," (trips_inserts v))
          (String.intercalate "," (trips_selects v)) src
          "ON CONFLICT DO NOTHING") := by
  refine ⟨rfl, ?_, ?_⟩ <;>
    simp [insert_status_changes_from, insert_trips_from, h, on_conflict_statement,
      OnConflictArg.truthy]

/-- Witness for C6 at version 0.3.0. -/
theorem omitted_conflict_do_nothing_witness :
    Version.unsupported ⟨0, 3, 0⟩ = false ∧
      (on_conflict_statement .none = "ON CONFLICT DO NOTHING" ∧
        insert_status_changes_from "stage" STATUS_CHANGES .none ⟨0, 3, 0⟩ =
          .ok (renderStatement STATUS_CHANGES
            (String.intercalate "," (status_change_inserts ⟨0, 3, 0⟩))
            (String.intercalate "," (status_change_selects ⟨0, 3, 0⟩)) "stage"
            "ON CONFLICT DO NOTHING") ∧
        insert_trips_from "stage" STATUS_CHANGES .none ⟨0, 3, 0⟩ =
          .ok (renderStatement STATUS_CHANGES
            (String.intercalate "," (trips_inserts ⟨0, 3, 0⟩))
            (String.intercalate "," (trips_selects ⟨0, 3, 0⟩)) "stage"
            "ON CONFLICT DO NOTHING")) :=
  ⟨by decide, omitted_conflict_do_nothing "stage" STATUS_CHANGES ⟨0, 3, 0⟩ (by decide)⟩

/-- Claim C7: for every supported version and every choice of source table,
destination table and conflict directive, both insert functions return a
statement of the template
`INSERT INTO "<dest>" (<cols>) SELECT <exprs> FROM "<source>" <on_conflict> ;`
with the table identifiers double-quoted (the template is `renderStatement`). -/
theorem statement_template (src dest : String) (ocu : OnConflictArg) (v : Version)
    (h : v.unsupported = false) :
    (∃ cols exprs, insert_status_changes_from src dest ocu v =
        .ok (renderStatement dest cols exprs src (on_conflict_statement ocu))) ∧
      ∃ cols exprs, insert_trips_from src dest ocu v =
        .ok (renderStatement dest cols exprs src (on_conflict_statement ocu)) := by
  refine ⟨⟨String.intercalate "," (status_change_inserts v),
      String.intercalate "," (status_change_selects v), ?_⟩,
    String.intercalate "," (trips_inserts v),
      String.intercalate "," (trips_selects v), ?_⟩ <;>
    simp [insert_status_changes_from, insert_trips_from, h]

/-- Witness for C7 at version 0.2.0 with an upsert directive. -/
theorem statement_template_witness :
    Version.unsupported ⟨0, 2, 0⟩ = false ∧
      ((∃ cols exprs,
          insert_status_changes_from "stage" "dest"
              (.tuple "(provider_id, device_id)" (.str "x = 1")) ⟨0, 2, 0⟩ =
            .ok (renderStatement "dest" cols exprs "stage"
              (on_conflict_statement
                (.tuple "(provider_id, device_id)" (.str "x = 1"))))) ∧
        ∃ cols exprs,
          insert_trips_from "stage" "dest"
              (.tuple "(provider_id, device_id)" (.str "x = 1")) ⟨0, 2, 0⟩ =
            .ok (renderStatement "dest" cols exprs "stage"
              (on_conflict_statement
                (.tuple "(provider_id, device_id)" (.str "x = 1"))))) :=
  ⟨by decide,
   statement_template "stage" "dest" (.tuple "(provider_id, device_id)" (.str "x = 1"))
     ⟨0, 2, 0⟩ (by decide)⟩

/-- Claim C8: two calls with identical argument values return identical
strings, for both insert functions and for `on_conflict_statement`. -/
theorem deterministic_output (s1 s2 d1 d2 : String) (o1 o2 : OnConflictArg)
    (v1 v2 : Version) (hs : s1 = s2) (hd : d1 = d2) (ho : o1 = o2) (hv : v1 = v2) :
    insert_status_changes_from s1 d1 o1 v1 = insert_status_changes_from s2 d2 o2 v2 ∧
      insert_trips_from s1 d1 o1 v1 = insert_trips_from s2 d2 o2 v2 ∧
      on_conflict_statement o1 = on_conflict_statement o2 := by
  subst hs; subst hd; subst ho; subst hv
  exact ⟨rfl, rfl, rfl⟩

/-- Witness for C8 at concrete identical arguments. -/
theorem deterministic_output_witness :
    insert_status_changes_from "stage" "dest" .none ⟨0, 2, 0⟩ =
        insert_status_changes_from "stage" "dest" .none ⟨0, 2, 0⟩ ∧
      insert_trips_from "stage" "dest" .none ⟨0, 2, 0⟩ =
        insert_trips_from "stage" "dest" .none ⟨0, 2, 0⟩ ∧
      on_conflict_statement .none = on_conflict_statement .none :=
  deterministic_output "stage" "stage" "dest" "dest" .none .none ⟨0, 2, 0⟩ ⟨0, 2, 0⟩
    rfl rfl rfl rfl

/-- Claim C9: starting from the module state at import time, no call to
either insert function or to `on_conflict_statement` changes the global
column-spec lists — they still hold exactly `_COMMON_INSERTS` and
`_COMMON_SELECTS` afterwards — and each call's value agrees with the pure
function, so later calls are unaffected by earlier ones. -/
theorem module_tables_unmodified (src dest : String) (ocu : OnConflictArg)
    (v : Version) :
    (insert_status_changes_from_st initState src dest ocu v).1.common_inserts =
        _COMMON_INSERTS ∧
      (insert_status_changes_from_st initState src dest ocu v).1.common_selects =
        _COMMON_SELECTS ∧
      (insert_trips_from_st initState src dest ocu v).1 = initState ∧
      (on_conflict_statement_st initState ocu).1 = initState ∧
      (insert_status_changes_from_st initState src dest ocu v).2 =
        insert_status_changes_from src dest ocu v ∧
      (insert_trips_from_st initState src dest ocu v).2 =
        insert_trips_from src dest ocu v := by
  by_cases h : v.unsupported = true <;>
    simp [insert_status_changes_from_st, insert_trips_from_st, on_conflict_statement_st,
      insert_status_changes_from, insert_trips_from, status_change_inserts,
      status_change_selects, trips_inserts, trips_selects, initState, h]

/-- Claim C10: a truthy `on_conflict_update` value that is not a tuple (a
bare dict, list or string) silently yields `ON CONFLICT DO NOTHING`, not a
DO UPDATE clause and not an error. -/
theorem non_tuple_conflict_ignored (ocu : OnConflictArg)
    (ht : ocu.truthy = true) (hnt : ocu.isTuple = false) :
    on_conflict_statement ocu = "ON CONFLICT DO NOTHING" := by
  cases ocu <;>
    simp_all [on_conflict_statement, OnConflictArg.truthy, OnConflictArg.isTuple]

/-- Witness for C10: a bare non-empty dict. -/
theorem non_tuple_conflict_ignored_witness :
    OnConflictArg.truthy (.bareDict [("battery_pct", "EXCLUDED.battery_pct")]) = true ∧
      OnConflictArg.isTuple (.bareDict [("battery_pct", "EXCLUDED.battery_pct")]) = false ∧
      on_conflict_statement (.bareDict [("battery_pct", "EXCLUDED.battery_pct")]) =
        "ON CONFLICT DO NOTHING" :=
  ⟨by decide, by decide,
   non_tuple_conflict_ignored (.bareDict [("battery_pct", "EXCLUDED.battery_pct")])
     (by decide) (by decide)⟩

end MdsSql
